import Mathlib

/-!
Verification of the usm-core service manager (Rust) against its
natural-language specification.

The definitions below are a shallow embedding of the Rust sources under
crates/usm-core/src:
  service/instance.rs  : ServiceStatus, InstanceConfig, ServiceInstance
  service/template.rs  : ServiceTemplate, ServiceCategory
  service/registry.rs  : TemplateRegistry, InstanceRegistry
  events/mod.rs        : ServiceEvent
  events/bus.rs        : EventBus (over the broadcast channel semantics)
  monitor/macos.rs     : MacOSMonitor.start_process_with_port
  monitor/linux.rs     : LinuxMonitor.start_process
  monitor/backend.rs   : ProcessMonitor trait default start_process_with_port
  lib.rs               : UsmCore orchestration operations
  server/mod.rs        : HTTP start/stop handlers

Modelling conventions:
  Rust HashMap<String, V> registries are embedded as association lists with
  unique keys; u16/u32 become Nat; chrono timestamps become a Nat clock value
  passed explicitly; PathBuf becomes String; anyhow errors become
  Except String; the process monitor, the config collaborator and the wall
  clock are abstracted into an explicit environment, and every externally
  visible side effect of an orchestrator operation is recorded in an action
  trace in execution order.
-/

/-- Status of a service instance (service/instance.rs, ServiceStatus). -/
inductive ServiceStatus
  | stopped
  | running
  | starting
  | stopping
  | error
  | unknown
deriving DecidableEq

/-- Category for organizing services (service/template.rs, ServiceCategory). -/
inductive ServiceCategory
  | core
  | development
  | database
  | infrastructure
  | custom
deriving DecidableEq

/-- A service template (service/template.rs, ServiceTemplate). -/
structure ServiceTemplate where
  id : String
  display_name : String
  description : Option String
  default_port : Nat
  port_range : Option (Nat × Nat)
  start_command : String
  stop_command : Option String
  health_endpoint : Option String
  health_timeout_ms : Nat
  category : ServiceCategory
  supports_multiple : Bool
  is_docker : Bool
  default_env : List (String × String)
deriving DecidableEq

/-- Configuration for creating a new instance (service/instance.rs, InstanceConfig). -/
structure InstanceConfig where
  instance_id : String
  template_id : String
  port : Option Nat
  working_dir : Option String
  config_path : Option String
  version : Option String
  git_branch : Option String
  tags : List String
  auto_start : Bool
  env_vars : List (String × String)
deriving DecidableEq

/-- A service instance (service/instance.rs, ServiceInstance). -/
structure ServiceInstance where
  id : String
  template_id : String
  port : Nat
  working_dir : Option String
  config_path : Option String
  version : Option String
  git_branch : Option String
  tags : List String
  auto_start : Bool
  env_vars : List (String × String)
  status : ServiceStatus
  pid : Option Nat
  started_at : Option Nat
  created_at : Nat
  created_via : String
deriving DecidableEq

/-- ServiceInstance.from_config (service/instance.rs lines 147-177).
Validation rejects empty identifiers; the port defaults to 0 when omitted
(the template default is not consulted here); runtime state starts as
Stopped with no pid and no start timestamp; created_via is "api".
The current time is passed explicitly for Utc::now(). -/
def ServiceInstance.from_config (config : InstanceConfig) (now : Nat) :
    Except String ServiceInstance :=
  if config.instance_id = "" then
    Except.error "Instance ID cannot be empty"
  else if config.template_id = "" then
    Except.error "Template ID cannot be empty"
  else
    Except.ok
      { id := config.instance_id
        template_id := config.template_id
        port := config.port.getD 0
        working_dir := config.working_dir
        config_path := config.config_path
        version := config.version
        git_branch := config.git_branch
        tags := config.tags
        auto_start := config.auto_start
        env_vars := config.env_vars
        status := ServiceStatus.stopped
        pid := none
        started_at := none
        created_at := now
        created_via := "api" }

/-- Association-list helper: does a key occur (HashMap.contains_key). -/
def keyMem {α : Type} : List (String × α) → String → Bool
  | [], _ => false
  | p :: rest, k => if p.1 = k then true else keyMem rest k

/-- Association-list helper: value at a key (HashMap.get). -/
def keyLookup {α : Type} : List (String × α) → String → Option α
  | [], _ => none
  | p :: rest, k => if p.1 = k then some p.2 else keyLookup rest k

/-- Association-list helper: drop the entry at a key (HashMap.remove). -/
def keyErase {α : Type} : List (String × α) → String → List (String × α)
  | [], _ => []
  | p :: rest, k => if p.1 = k then rest else p :: keyErase rest k

/-- Association-list helper: rewrite the value at a key in place
(the effect of mutating through HashMap.get_mut). -/
def keyModify {α : Type} : List (String × α) → String → (α → α) → List (String × α)
  | [], _, _ => []
  | p :: rest, k, f => if p.1 = k then (p.1, f p.2) :: rest else p :: keyModify rest k f

/-- Registry for service templates (service/registry.rs, TemplateRegistry). -/
structure TemplateRegistry where
  templates : List (String × ServiceTemplate)
deriving DecidableEq

/-- TemplateRegistry.register (service/registry.rs lines 22-29): Conflict when
the identifier already exists, otherwise store. Mutating operations return the
resulting registry next to the result, the input registry on failure. -/
def TemplateRegistry.register (r : TemplateRegistry) (template : ServiceTemplate) :
    Except String Unit × TemplateRegistry :=
  if keyMem r.templates template.id then
    (Except.error ("Template " ++ template.id ++ " already exists"), r)
  else
    (Except.ok (), ⟨(template.id, template) :: r.templates⟩)

/-- TemplateRegistry.get (service/registry.rs lines 32-34). -/
def TemplateRegistry.get (r : TemplateRegistry) (id : String) : Option ServiceTemplate :=
  keyLookup r.templates id

/-- TemplateRegistry.remove (service/registry.rs lines 37-42): NotFound when
absent. -/
def TemplateRegistry.remove (r : TemplateRegistry) (id : String) :
    Except String Unit × TemplateRegistry :=
  if keyMem r.templates id then
    (Except.ok (), ⟨keyErase r.templates id⟩)
  else
    (Except.error ("Template " ++ id ++ " not found"), r)

/-- Registry for service instances (service/registry.rs, InstanceRegistry). -/
structure InstanceRegistry where
  instances : List (String × ServiceInstance)
deriving DecidableEq

/-- InstanceRegistry.find_by_port (service/registry.rs lines 154-156): first
stored instance holding the port. -/
def findPort : List (String × ServiceInstance) → Nat → Option ServiceInstance
  | [], _ => none
  | p :: rest, port => if p.2.port = port then some p.2 else findPort rest port

/-- InstanceRegistry.find_by_port on the registry. -/
def InstanceRegistry.find_by_port (r : InstanceRegistry) (port : Nat) :
    Option ServiceInstance :=
  findPort r.instances port

/-- InstanceRegistry.add (service/registry.rs lines 78-94): Conflict when the
identifier exists, then Conflict when the port is already held by a stored
instance; otherwise insert. -/
def InstanceRegistry.add (r : InstanceRegistry) (inst : ServiceInstance) :
    Except String Unit × InstanceRegistry :=
  if keyMem r.instances inst.id then
    (Except.error ("Instance " ++ inst.id ++ " already exists"), r)
  else
    match findPort r.instances inst.port with
    | some existing =>
        (Except.error ("Port already in use by instance " ++ existing.id), r)
    | none =>
        (Except.ok (), ⟨(inst.id, inst) :: r.instances⟩)

/-- InstanceRegistry.get (service/registry.rs lines 97-99). -/
def InstanceRegistry.get (r : InstanceRegistry) (id : String) : Option ServiceInstance :=
  keyLookup r.instances id

/-- InstanceRegistry.remove (service/registry.rs lines 107-112). -/
def InstanceRegistry.removeInst (r : InstanceRegistry) (id : String) :
    Except String Unit × InstanceRegistry :=
  if keyMem r.instances id then
    (Except.ok (), ⟨keyErase r.instances id⟩)
  else
    (Except.error ("Instance " ++ id ++ " not found"), r)

/-- InstanceRegistry.has_instances_for_template (service/registry.rs
lines 147-151). -/
def hasTemplateRef : List (String × ServiceInstance) → String → Bool
  | [], _ => false
  | p :: rest, tid => if p.2.template_id = tid then true else hasTemplateRef rest tid

/-- InstanceRegistry.has_instances_for_template on the registry. -/
def InstanceRegistry.has_instances_for_template (r : InstanceRegistry)
    (template_id : String) : Bool :=
  hasTemplateRef r.instances template_id

/-- The per-instance effect of InstanceRegistry.update_status
(service/registry.rs lines 208-215): status and pid are overwritten with the
arguments; started_at is set to now when entering Running with no prior start
time, kept when already set while Running, and cleared whenever the status is
not Running. -/
def updStatusFields (i : ServiceInstance) (status : ServiceStatus)
    (pid : Option Nat) (now : Nat) : ServiceInstance :=
  let j := { i with status := status, pid := pid }
  if status = ServiceStatus.running then
    if j.started_at = none then { j with started_at := some now } else j
  else
    { j with started_at := none }

/-- InstanceRegistry.update_status (service/registry.rs lines 197-218):
NotFound for an unknown id, otherwise rewrite the stored instance. -/
def InstanceRegistry.update_status (r : InstanceRegistry) (id : String)
    (status : ServiceStatus) (pid : Option Nat) (now : Nat) :
    Except String Unit × InstanceRegistry :=
  if keyMem r.instances id then
    (Except.ok (), ⟨keyModify r.instances id (fun i => updStatusFields i status pid now)⟩)
  else
    (Except.error ("Instance " ++ id ++ " not found"), r)

/-- Substring replacement on character lists, structurally recursive on fuel
so that it evaluates in the kernel. With fuel at least the length of the list
it replaces every non-overlapping occurrence left to right, which is the
behaviour of Rust str::replace for the non-empty patterns used here. -/
def replaceAux (pat rep : List Char) : Nat → List Char → List Char
  | _, [] => []
  | 0, l => l
  | fuel + 1, c :: rest =>
    if !pat.isEmpty && pat.isPrefixOf (c :: rest) then
      rep ++ replaceAux pat rep fuel (List.drop pat.length (c :: rest))
    else
      c :: replaceAux pat rep fuel rest

/-- Embedding of str::replace used by the command builders. -/
def strReplace (s pattern replacement : String) : String :=
  ⟨replaceAux pattern.data replacement.data s.data.length s.data⟩

/-- ServiceTemplate.build_start_command (service/template.rs lines 86-104):
substitute the port, the config path (empty when absent) and the working
directory (a dot when absent) into the start command. -/
def ServiceTemplate.build_start_command (t : ServiceTemplate)
    (inst : ServiceInstance) : String :=
  let cmd := strReplace t.start_command "{port}" (toString inst.port)
  let cmd :=
    match inst.config_path with
    | some config => strReplace cmd "{config}" config
    | none => strReplace cmd "{config}" ""
  match inst.working_dir with
  | some working_dir => strReplace cmd "{working_dir}" working_dir
  | none => strReplace cmd "{working_dir}" "."

/-- Events broadcast to subscribers (events/mod.rs, ServiceEvent). The f64
cpu_percent payload of MetricsUpdated is abstracted to Nat; no claim touches
it. -/
inductive ServiceEvent
  | instanceCreated (instance_id : String) (template_id : String)
  | instanceRemoved (instance_id : String)
  | statusChanged (instance_id : String) (status : ServiceStatus) (pid : Option Nat)
  | metricsUpdated (instance_id : String) (cpu_percent : Nat) (memory_mb : Nat)
  | healthChanged (instance_id : String) (healthy : Bool) (message : Option String)
  | error (instance_id : Option String) (message : String)
  | templateRegistered (template_id : String)
  | templateRemoved (template_id : String)
  | configReloaded
deriving DecidableEq

/-- The event bus (events/bus.rs, EventBus), embedding the documented
semantics of the underlying broadcast channel: one bounded pending queue per
live subscriber; a send appends to every queue, dropping the oldest pending
event of a queue that is at capacity, and reports the number of current
receivers; with no receivers the send is a no-op reporting 0. -/
structure EventBus where
  capacity : Nat
  queues : List (List ServiceEvent)
deriving DecidableEq

/-- EventBus.new (events/bus.rs lines 22-25): no subscribers yet. -/
def EventBus.new (capacity : Nat) : EventBus :=
  ⟨capacity, []⟩

/-- Bounded append used by a send: drop the oldest pending events when the
queue would exceed the channel capacity. -/
def pushBounded (cap : Nat) (q : List ServiceEvent) (e : ServiceEvent) :
    List ServiceEvent :=
  let q := q ++ [e]
  if cap < q.length then q.drop (q.length - cap) else q

/-- EventBus.send (events/bus.rs lines 31-34): deliver to every current
subscriber and return the receiver count, 0 when none are subscribed. -/
def EventBus.send (bus : EventBus) (event : ServiceEvent) : Nat × EventBus :=
  if bus.queues.isEmpty then
    (0, bus)
  else
    (bus.queues.length, ⟨bus.capacity, bus.queues.map (fun q => pushBounded bus.capacity q event)⟩)

/-- EventBus.subscribe (events/bus.rs lines 41-43): a fresh receiver with an
empty pending queue, so it observes only events published afterwards. The
returned Nat is the index of the new queue (the receive handle). -/
def EventBus.subscribe (bus : EventBus) : Nat × EventBus :=
  (bus.queues.length, ⟨bus.capacity, bus.queues ++ [[]]⟩)

/-- EventBus.subscriber_count (events/bus.rs lines 46-48). -/
def EventBus.subscriber_count (bus : EventBus) : Nat :=
  bus.queues.length

/-- Abstraction of the operating system as seen by one start_process call:
the spawn result for the wrapper child, the PID handshake outcome (the parsed
content of the temp file, none when the file is absent, unreadable or
malformed, all of which the source maps to pid 0), liveness of a PID after
the verification window, and the PID listening on a port. -/
structure ProcWorld where
  spawnResult : Except String Nat
  capturedPid : Option Nat
  running : Nat → Bool
  portPid : Nat → Option Nat

/-- MacOSMonitor.start_process_with_port (monitor/macos.rs lines 114-221):
spawn the wrapper; read the handshake PID (0 on any capture failure); after
the verification window return the captured PID if positive and running;
otherwise, when a port was supplied and the port lookup yields a running
process, return that PID; otherwise fail with the died-immediately error. -/
def macosStartProcessWithPort (w : ProcWorld) (command : String)
    (working_dir : Option String) (port : Option Nat) : Except String Nat :=
  match w.spawnResult with
  | Except.error e => Except.error e
  | Except.ok _child =>
    let pid := w.capturedPid.getD 0
    if 0 < pid && w.running pid then
      Except.ok pid
    else
      let fallback : Option Nat :=
        match port with
        | some prt =>
          match w.portPid prt with
          | some fpid => if w.running fpid then some fpid else none
          | none => none
        | none => none
      match fallback with
      | some fpid => Except.ok fpid
      | none => Except.error ("Process " ++ toString pid ++ " started but immediately died")

/-- MacOSMonitor.start_process (monitor/macos.rs lines 105-107): delegates to
the with-port variant with no port. -/
def macosStartProcess (w : ProcWorld) (command : String)
    (working_dir : Option String) : Except String Nat :=
  macosStartProcessWithPort w command working_dir none

/-- LinuxMonitor.start_process (monitor/linux.rs lines 140-159): spawn the
backgrounded shell and return the child PID unconditionally, with no
handshake, verification or fallback. -/
def linuxStartProcess (w : ProcWorld) (command : String)
    (working_dir : Option String) : Except String Nat :=
  match w.spawnResult with
  | Except.error e => Except.error e
  | Except.ok child => Except.ok child

/-- LinuxMonitor inherits the ProcessMonitor trait default for
start_process_with_port (monitor/backend.rs lines 44-52), which ignores the
port and calls start_process. -/
def linuxStartProcessWithPort (w : ProcWorld) (command : String)
    (working_dir : Option String) (port : Option Nat) : Except String Nat :=
  linuxStartProcess w command working_dir

/-- The PID the spec-side contract expects start_process_with_port to return,
written from the spec text of the PID-capture protocol (steps 5-7): the
captured PID when positive and running, else the running process the port
lookup resolves to, else none (the call must fail). -/
def contractExpected (w : ProcWorld) (port : Option Nat) : Option Nat :=
  let pid := w.capturedPid.getD 0
  if 0 < pid && w.running pid then
    some pid
  else
    match port with
    | some prt =>
      match w.portPid prt with
      | some fpid => if w.running fpid then some fpid else none
      | none => none
    | none => none

/-- The identical cross-platform contract claimed for every backend: whenever
the spawn itself succeeds, the call returns exactly the contract PID, and
fails when there is none. -/
def startWithPortContract
    (impl : ProcWorld → String → Option String → Option Nat → Except String Nat) : Prop :=
  ∀ (w : ProcWorld) (command : String) (working_dir : Option String) (port : Option Nat),
    (∃ child, w.spawnResult = Except.ok child) →
    match contractExpected w port with
    | some p => impl w command working_dir port = Except.ok p
    | none => ∃ msg, impl w command working_dir port = Except.error msg

deriving instance DecidableEq for Except

/-- Externally visible side effects of an orchestrator operation, recorded in
execution order: process-monitor calls, config-collaborator saves, and event
publications. -/
inductive CoreAction
  | monStartWithPort (command : String) (working_dir : Option String) (port : Option Nat)
  | monStart (command : String) (working_dir : Option String)
  | monKill (pid : Nat)
  | monExec (command : String)
  | persistInstances
  | persistTemplates
  | publish (event : ServiceEvent)
deriving DecidableEq

/-- The environment an orchestrator operation runs against: the clock, the
process monitor results, and the config collaborator results. -/
structure Env where
  now : Nat
  startWithPort : String → Option String → Option Nat → Except String Nat
  startPlain : String → Option String → Except String Nat
  kill : Nat → Except String Unit
  exec : String → Except String Unit
  saveInstances : Except String Unit
  saveTemplates : Except String Unit

/-- The state owned by UsmCore (lib.rs): both registries. -/
structure CoreState where
  templates : TemplateRegistry
  instances : InstanceRegistry
deriving DecidableEq

/-- Result of an orchestrator operation: outcome, resulting state, and the
trace of external actions in order. -/
structure CoreResult (α : Type) where
  res : Except String α
  state : CoreState
  trace : List CoreAction
deriving DecidableEq

/-- UsmCore.create_instance (lib.rs lines 157-194): validate the template,
enforce supports_multiple, build the instance, add it to the registry,
persist, then publish InstanceCreated. -/
def UsmCore.create_instance (env : Env) (s : CoreState) (config : InstanceConfig) :
    CoreResult String :=
  match s.templates.get config.template_id with
  | none => ⟨Except.error ("Template " ++ config.template_id ++ " not found"), s, []⟩
  | some template =>
    if !template.supports_multiple
        && s.instances.has_instances_for_template config.template_id then
      ⟨Except.error ("Template " ++ config.template_id
        ++ " does not support multiple instances"), s, []⟩
    else
      match ServiceInstance.from_config config env.now with
      | Except.error e => ⟨Except.error e, s, []⟩
      | Except.ok inst =>
        match s.instances.add inst with
        | (Except.error e, _) => ⟨Except.error e, s, []⟩
        | (Except.ok (), instances') =>
          let s' : CoreState := { s with instances := instances' }
          match env.saveInstances with
          | Except.error e => ⟨Except.error e, s', [CoreAction.persistInstances]⟩
          | Except.ok () =>
            ⟨Except.ok inst.id, s',
              [CoreAction.persistInstances,
               CoreAction.publish (ServiceEvent.instanceCreated inst.id config.template_id)]⟩

/-- UsmCore.start_instance (lib.rs lines 219-253): look up the instance and
its template, spawn via the monitor with-port call, set the instance Running
with the new pid and start time, then publish StatusChanged. There is no
already-Running check and no persistence step. -/
def UsmCore.start_instance (env : Env) (s : CoreState) (id : String) :
    CoreResult Unit :=
  match s.instances.get id with
  | none => ⟨Except.error ("Instance " ++ id ++ " not found"), s, []⟩
  | some inst =>
    match s.templates.get inst.template_id with
    | none => ⟨Except.error ("Template " ++ inst.template_id ++ " not found"), s, []⟩
    | some template =>
      let command := template.build_start_command inst
      match env.startWithPort command inst.working_dir (some inst.port) with
      | Except.error e =>
        ⟨Except.error e, s,
          [CoreAction.monStartWithPort command inst.working_dir (some inst.port)]⟩
      | Except.ok pid =>
        let inst' := { inst with
          status := ServiceStatus.running
          pid := some pid
          started_at := some env.now }
        let s' : CoreState :=
          { s with instances := ⟨keyModify s.instances.instances id (fun _ => inst')⟩ }
        ⟨Except.ok (), s',
          [CoreAction.monStartWithPort command inst.working_dir (some inst.port),
           CoreAction.publish (ServiceEvent.statusChanged id ServiceStatus.running (some pid))]⟩

/-- UsmCore.stop_instance (lib.rs lines 257-299): look up the instance;
return Ok immediately when it is not Running; otherwise terminate via the
custom stop command when the template defines one and via kill otherwise,
clear status, pid and started_at, then publish StatusChanged. No persistence
step. -/
def UsmCore.stop_instance (env : Env) (s : CoreState) (id : String) :
    CoreResult Unit :=
  match s.instances.get id with
  | none => ⟨Except.error ("Instance " ++ id ++ " not found"), s, []⟩
  | some inst =>
    if inst.status ≠ ServiceStatus.running then
      ⟨Except.ok (), s, []⟩
    else
      let killStep : Except String Unit × List CoreAction :=
        match inst.pid with
        | some pid =>
          match s.templates.get inst.template_id with
          | some tmpl =>
            match tmpl.stop_command with
            | some stopCmd =>
              let cmd := strReplace stopCmd "{pid}" (toString pid)
              (env.exec cmd, [CoreAction.monExec cmd])
            | none => (env.kill pid, [CoreAction.monKill pid])
          | none => (env.kill pid, [CoreAction.monKill pid])
        | none => (Except.ok (), [])
      match killStep with
      | (Except.error e, tr) => ⟨Except.error e, s, tr⟩
      | (Except.ok (), tr) =>
        let inst' := { inst with
          status := ServiceStatus.stopped
          pid := none
          started_at := none }
        let s' : CoreState :=
          { s with instances := ⟨keyModify s.instances.instances id (fun _ => inst')⟩ }
        ⟨Except.ok (), s',
          tr ++ [CoreAction.publish (ServiceEvent.statusChanged id ServiceStatus.stopped none)]⟩

/-- UsmCore.remove_instance (lib.rs lines 198-215): best-effort stop first
(its outcome is discarded), then remove from the registry, persist, and
publish InstanceRemoved. -/
def UsmCore.remove_instance (env : Env) (s : CoreState) (id : String) :
    CoreResult Unit :=
  let stopped := UsmCore.stop_instance env s id
  let s1 := stopped.state
  match s1.instances.removeInst id with
  | (Except.error e, _) => ⟨Except.error e, s1, stopped.trace⟩
  | (Except.ok (), instances') =>
    let s2 : CoreState := { s1 with instances := instances' }
    match env.saveInstances with
    | Except.error e => ⟨Except.error e, s2, stopped.trace ++ [CoreAction.persistInstances]⟩
    | Except.ok () =>
      ⟨Except.ok (), s2,
        stopped.trace ++ [CoreAction.persistInstances,
          CoreAction.publish (ServiceEvent.instanceRemoved id)]⟩

/-- UsmCore.remove_template (lib.rs lines 115-135): refuse while any instance
references the template, remove it from the registry (NotFound when absent),
persist the templates, then publish TemplateRemoved. -/
def UsmCore.remove_template (env : Env) (s : CoreState) (id : String) :
    CoreResult Unit :=
  if s.instances.has_instances_for_template id then
    ⟨Except.error ("Cannot remove template " ++ id ++ ": instances exist"), s, []⟩
  else
    match s.templates.remove id with
    | (Except.error e, _) => ⟨Except.error e, s, []⟩
    | (Except.ok (), templates') =>
      let s' : CoreState := { s with templates := templates' }
      match env.saveTemplates with
      | Except.error e => ⟨Except.error e, s', [CoreAction.persistTemplates]⟩
      | Except.ok () =>
        ⟨Except.ok (), s',
          [CoreAction.persistTemplates,
           CoreAction.publish (ServiceEvent.templateRemoved id)]⟩

/-- Result of an HTTP handler: an HTTP error status with message, or a value,
next to the resulting state and action trace. -/
structure HttpResult (α : Type) where
  res : Except (Nat × String) α
  state : CoreState
  trace : List CoreAction
deriving DecidableEq

/-- The HTTP start handler (server/mod.rs lines 267-321): 404 for an unknown
instance; an idempotent Ok short-circuit when the instance is already
Running, reporting its stored pid; 400 for an unknown template; then the
plain (portless) monitor spawn, 500 on its failure; finally the same state
update and StatusChanged publication as the core. -/
def Server.start_instance (env : Env) (s : CoreState) (id : String) :
    HttpResult (Option Nat) :=
  match s.instances.get id with
  | none => ⟨Except.error (404, "Instance " ++ id ++ " not found"), s, []⟩
  | some inst =>
    if inst.status = ServiceStatus.running then
      ⟨Except.ok inst.pid, s, []⟩
    else
      match s.templates.get inst.template_id with
      | none => ⟨Except.error (400, "Template " ++ inst.template_id ++ " not found"), s, []⟩
      | some template =>
        let command := template.build_start_command inst
        match env.startPlain command inst.working_dir with
        | Except.error e =>
          ⟨Except.error (500, e), s, [CoreAction.monStart command inst.working_dir]⟩
        | Except.ok pid =>
          let inst' := { inst with
            status := ServiceStatus.running
            pid := some pid
            started_at := some env.now }
          let s' : CoreState :=
            { s with instances := ⟨keyModify s.instances.instances id (fun _ => inst')⟩ }
          ⟨Except.ok (some pid), s',
            [CoreAction.monStart command inst.working_dir,
             CoreAction.publish (ServiceEvent.statusChanged id ServiceStatus.running (some pid))]⟩

/-- The HTTP stop handler (server/mod.rs lines 323-388): 404 for an unknown
instance; an idempotent Ok short-circuit when the instance is not Running;
otherwise the custom stop command or kill (500 on failure), the state update,
and the StatusChanged publication. -/
def Server.stop_instance (env : Env) (s : CoreState) (id : String) :
    HttpResult Unit :=
  match s.instances.get id with
  | none => ⟨Except.error (404, "Instance " ++ id ++ " not found"), s, []⟩
  | some inst =>
    if inst.status ≠ ServiceStatus.running then
      ⟨Except.ok (), s, []⟩
    else
      let killStep : Except String Unit × List CoreAction :=
        match inst.pid with
        | some pid =>
          match s.templates.get inst.template_id with
          | some tmpl =>
            match tmpl.stop_command with
            | some stopCmd =>
              let cmd := strReplace stopCmd "{pid}" (toString pid)
              (env.exec cmd, [CoreAction.monExec cmd])
            | none => (env.kill pid, [CoreAction.monKill pid])
          | none => (env.kill pid, [CoreAction.monKill pid])
        | none => (Except.ok (), [])
      match killStep with
      | (Except.error e, tr) => ⟨Except.error (500, e), s, tr⟩
      | (Except.ok (), tr) =>
        let inst' := { inst with
          status := ServiceStatus.stopped
          pid := none
          started_at := none }
        let s' : CoreState :=
          { s with instances := ⟨keyModify s.instances.instances id (fun _ => inst')⟩ }
        ⟨Except.ok (), s',
          tr ++ [CoreAction.publish (ServiceEvent.statusChanged id ServiceStatus.stopped none)]⟩

/-- Port uniqueness over the stored instances: no two entries share a port. -/
def portUnique (l : List (String × ServiceInstance)) : Prop :=
  l.Pairwise (fun a b => a.2.port ≠ b.2.port)

/-- The runtime-state invariant on started_at claimed by the spec. -/
def startedIffRunning (i : ServiceInstance) : Prop :=
  i.started_at.isSome = true ↔ i.status = ServiceStatus.running

/-- The runtime-state invariant on pid claimed by the spec. -/
def pidIffRunning (i : ServiceInstance) : Prop :=
  i.pid.isSome = true ↔ i.status = ServiceStatus.running

/-- Both runtime-state invariants over every stored instance. -/
def runtimeInv (l : List (String × ServiceInstance)) : Prop :=
  ∀ p ∈ l, startedIffRunning p.2 ∧ pidIffRunning p.2

theorem keyLookup_mem {α : Type} {l : List (String × α)} {k : String} {v : α}
    (h : keyLookup l k = some v) : (k, v) ∈ l := by
  induction l with
  | nil => simp [keyLookup] at h
  | cons p rest ih =>
    by_cases hk : p.1 = k
    · simp [keyLookup, hk] at h
      subst hk
      rw [← h]
      exact List.mem_cons_self _ _
    · simp [keyLookup, hk] at h
      exact List.mem_cons_of_mem _ (ih h)

theorem keyMem_iff_lookup {α : Type} {l : List (String × α)} {k : String} :
    keyMem l k = true ↔ ∃ v, keyLookup l k = some v := by
  induction l with
  | nil => simp [keyMem, keyLookup]
  | cons p rest ih =>
    by_cases hk : p.1 = k
    · simp [keyMem, keyLookup, hk]
    · simp [keyMem, keyLookup, hk, ih]

theorem keyErase_sublist {α : Type} (l : List (String × α)) (k : String) :
    (keyErase l k).Sublist l := by
  induction l with
  | nil => simp [keyErase]
  | cons p rest ih =>
    by_cases hk : p.1 = k
    · simp only [keyErase, hk, if_pos]
      exact List.sublist_cons_self p rest
    · simp only [keyErase, hk, if_neg, not_false_iff]
      exact List.Sublist.cons₂ p ih

theorem mem_keyModify {α : Type} {l : List (String × α)} {k : String} {f : α → α}
    {p : String × α} (h : p ∈ keyModify l k f) :
    p ∈ l ∨ ∃ v, keyLookup l k = some v ∧ p = (k, f v) := by
  induction l with
  | nil => simp [keyModify] at h
  | cons q rest ih =>
    by_cases hk : q.1 = k
    · simp only [keyModify, hk, if_pos] at h
      rcases List.mem_cons.mp h with h1 | h2
      · right
        refine ⟨q.2, ?_, h1⟩
        simp [keyLookup, hk]
      · left
        exact List.mem_cons_of_mem _ h2
    · simp only [keyModify, hk, if_neg, not_false_iff] at h
      rcases List.mem_cons.mp h with h1 | h2
      · left
        rw [h1]
        exact List.mem_cons_self _ _
      · rcases ih h2 with h3 | ⟨v, hv, hp⟩
        · left
          exact List.mem_cons_of_mem _ h3
        · right
          refine ⟨v, ?_, hp⟩
          simp [keyLookup, hk, hv]

theorem keyLookup_keyModify_self {α : Type} {l : List (String × α)} {k : String}
    {f : α → α} : keyLookup (keyModify l k f) k = (keyLookup l k).map f := by
  induction l with
  | nil => simp [keyModify, keyLookup]
  | cons p rest ih =>
    by_cases hk : p.1 = k
    · simp [keyModify, keyLookup, hk]
    · simp [keyModify, keyLookup, hk, ih]

theorem keyLookup_keyModify_ne {α : Type} {l : List (String × α)} {k k' : String}
    {f : α → α} (h : k' ≠ k) :
    keyLookup (keyModify l k f) k' = keyLookup l k' := by
  induction l with
  | nil => simp [keyModify, keyLookup]
  | cons p rest ih =>
    by_cases hk : p.1 = k
    · have hp : p.1 ≠ k' := by
        rw [hk]
        exact Ne.symm h
      simp [keyModify, keyLookup, hk, hp, Ne.symm h]
    · simp [keyModify, keyLookup, hk, ih]

theorem findPort_eq_none {l : List (String × ServiceInstance)} {port : Nat}
    (h : findPort l port = none) : ∀ p ∈ l, p.2.port ≠ port := by
  induction l with
  | nil => simp
  | cons q rest ih =>
    by_cases hq : q.2.port = port
    · simp [findPort, hq] at h
    · simp only [findPort, hq, if_neg, not_false_iff] at h
      intro p hp
      rcases List.mem_cons.mp hp with h1 | h2
      · rw [h1]
        exact hq
      · exact ih h p h2

theorem findPort_isSome {l : List (String × ServiceInstance)} {port : Nat}
    {p : String × ServiceInstance} (hp : p ∈ l) (hport : p.2.port = port) :
    ∃ v, findPort l port = some v := by
  induction l with
  | nil => simp at hp
  | cons q rest ih =>
    by_cases hq : q.2.port = port
    · exact ⟨q.2, by simp [findPort, hq]⟩
    · rcases List.mem_cons.mp hp with h1 | h2
      · rw [h1] at hport
        exact absurd hport hq
      · rcases ih h2 with ⟨v, hv⟩
        exact ⟨v, by simp [findPort, hq, hv]⟩

theorem portUnique_keyModify {l : List (String × ServiceInstance)} {k : String}
    {f : ServiceInstance → ServiceInstance} (h : portUnique l)
    (hf : ∀ v, keyLookup l k = some v → (f v).port = v.port) :
    portUnique (keyModify l k f) := by
  induction l with
  | nil => simp [keyModify, portUnique]
  | cons p rest ih =>
    rcases (List.pairwise_cons.mp h) with ⟨hhead, htail⟩
    by_cases hk : p.1 = k
    · simp only [keyModify, hk, if_pos]
      apply List.pairwise_cons.mpr
      refine ⟨?_, htail⟩
      intro b hb
      have hfp : (f p.2).port = p.2.port := by
        apply hf
        simp [keyLookup, hk]
      rw [hfp]
      exact hhead b hb
    · simp only [keyModify, hk, if_neg, not_false_iff]
      apply List.pairwise_cons.mpr
      constructor
      · intro b hb
        rcases mem_keyModify hb with h1 | ⟨v, hv, hbv⟩
        · exact hhead b h1
        · have hlk : keyLookup (p :: rest) k = some v := by
            simp [keyLookup, hk, hv]
          have hfv : (f v).port = v.port := hf v hlk
          have hmem : ((k, v) : String × ServiceInstance) ∈ rest := keyLookup_mem hv
          have := hhead (k, v) hmem
          rw [hbv]
          simpa [hfv] using this
      · apply ih htail
        intro v hv
        apply hf
        simp [keyLookup, hk, hv]

theorem all_keyModify {α : Type} {P : α → Prop} {l : List (String × α)} {k : String}
    {f : α → α} (h : ∀ p ∈ l, P p.2) (hf : ∀ v, keyLookup l k = some v → P (f v)) :
    ∀ p ∈ keyModify l k f, P p.2 := by
  intro p hp
  rcases mem_keyModify hp with h1 | ⟨v, hv, hpv⟩
  · exact h p h1
  · rw [hpv]
    exact hf v hv

/-- Sample template used by concrete witnesses. -/
def tmplA : ServiceTemplate :=
  { id := "tmplA"
    display_name := "Template A"
    description := none
    default_port := 9000
    port_range := none
    start_command := "run --port {port}"
    stop_command := none
    health_endpoint := none
    health_timeout_ms := 5000
    category := ServiceCategory.core
    supports_multiple := true
    is_docker := false
    default_env := [] }

/-- Sample stopped instance used by concrete witnesses. -/
def instStopped : ServiceInstance :=
  { id := "a"
    template_id := "tmplA"
    port := 9000
    working_dir := none
    config_path := none
    version := none
    git_branch := none
    tags := []
    auto_start := false
    env_vars := []
    status := ServiceStatus.stopped
    pid := none
    started_at := none
    created_at := 0
    created_via := "api" }

/-- Sample running instance used by concrete witnesses. -/
def instRunning : ServiceInstance :=
  { instStopped with
    id := "b"
    port := 9001
    status := ServiceStatus.running
    pid := some 7
    started_at := some 1 }

/-- Registry holding the one stopped sample instance. -/
def regOne : InstanceRegistry := ⟨[("a", instStopped)]⟩

/-- Core state with the sample template and the stopped sample instance. -/
def stateOne : CoreState := ⟨⟨[("tmplA", tmplA)]⟩, ⟨[("a", instStopped)]⟩⟩

/-- Core state with the sample template and the running sample instance. -/
def stateRunning : CoreState := ⟨⟨[("tmplA", tmplA)]⟩, ⟨[("b", instRunning)]⟩⟩

/-- Environment whose monitor and config collaborator always succeed; a spawn
reports pid 42. -/
def envOk : Env :=
  { now := 5
    startWithPort := fun _ _ _ => Except.ok 42
    startPlain := fun _ _ => Except.ok 42
    kill := fun _ => Except.ok ()
    exec := fun _ => Except.ok ()
    saveInstances := Except.ok ()
    saveTemplates := Except.ok () }

/-- C10: ServiceInstance.from_config fails exactly when instance_id or
template_id is empty; on success the instance has status Stopped, no pid, no
started_at, created_via "api", the config identifiers, and the supplied port
or 0 when the port is omitted (the template default is not consulted). -/
theorem from_config_spec (config : InstanceConfig) (now : Nat) :
    ((∃ e, ServiceInstance.from_config config now = Except.error e) ↔
      (config.instance_id = "" ∨ config.template_id = "")) ∧
    (∀ inst, ServiceInstance.from_config config now = Except.ok inst →
      inst.id = config.instance_id ∧
      inst.template_id = config.template_id ∧
      inst.status = ServiceStatus.stopped ∧
      inst.pid = none ∧
      inst.started_at = none ∧
      inst.created_via = "api" ∧
      inst.port = config.port.getD 0) := by
  constructor
  · by_cases h1 : config.instance_id = ""
    · simp [ServiceInstance.from_config, h1]
    · by_cases h2 : config.template_id = ""
      · simp [ServiceInstance.from_config, h1, h2]
      · simp [ServiceInstance.from_config, h1, h2]
  · intro inst h
    by_cases h1 : config.instance_id = ""
    · simp [ServiceInstance.from_config, h1] at h
    · by_cases h2 : config.template_id = ""
      · simp [ServiceInstance.from_config, h1, h2] at h
      · simp [ServiceInstance.from_config, h1, h2] at h
        rw [← h]
        exact ⟨rfl, rfl, rfl, rfl, rfl, rfl, rfl⟩

/-- Sample configuration for the C10 witness. -/
def cfgSample : InstanceConfig :=
  { instance_id := "a"
    template_id := "tmplA"
    port := some 9000
    working_dir := none
    config_path := none
    version := none
    git_branch := none
    tags := []
    auto_start := false
    env_vars := [] }

/-- Witness for C10 at a concrete configuration. -/
theorem from_config_spec_witness :
    ServiceInstance.from_config cfgSample 0 = Except.ok instStopped ∧
    instStopped.status = ServiceStatus.stopped ∧
    instStopped.port = cfgSample.port.getD 0 :=
  ⟨by decide,
   ((from_config_spec cfgSample 0).2 instStopped (by decide)).2.2.1,
   ((from_config_spec cfgSample 0).2 instStopped (by decide)).2.2.2.2.2.2⟩

/-- C7: update_status on a stored id succeeds, overwrites status and pid with
the arguments, and derives started_at: set to the current time on entering
Running with no prior start time, kept when already set while Running, and
cleared whenever the new status is not Running; other instances are
untouched; an unknown id fails with NotFound and changes nothing. -/
theorem update_status_spec (r : InstanceRegistry) (id : String)
    (status : ServiceStatus) (pid : Option Nat) (now : Nat) :
    (∀ inst, r.get id = some inst →
      (r.update_status id status pid now).1 = Except.ok () ∧
      (r.update_status id status pid now).2.get id = some
        { inst with
          status := status
          pid := pid
          started_at :=
            if status = ServiceStatus.running then
              (if inst.started_at = none then some now else inst.started_at)
            else none } ∧
      (∀ k, k ≠ id → (r.update_status id status pid now).2.get k = r.get k)) ∧
    (r.get id = none →
      (∃ e, (r.update_status id status pid now).1 = Except.error e) ∧
      (r.update_status id status pid now).2 = r) := by
  constructor
  · intro inst hget
    have hmem : keyMem r.instances id = true :=
      keyMem_iff_lookup.mpr ⟨inst, hget⟩
    constructor
    · simp [InstanceRegistry.update_status, hmem]
    constructor
    · show keyLookup (InstanceRegistry.update_status r id status pid now).2.instances id = _
      have h2 : (InstanceRegistry.update_status r id status pid now).2.instances =
          keyModify r.instances id (fun i => updStatusFields i status pid now) := by
        simp [InstanceRegistry.update_status, hmem]
      rw [h2, keyLookup_keyModify_self]
      have hg : keyLookup r.instances id = some inst := hget
      rw [hg]
      simp only [Option.map_some']
      congr 1
      unfold updStatusFields
      by_cases hs : status = ServiceStatus.running
      · by_cases ha : inst.started_at = none
        · simp [hs, ha]
        · simp [hs, ha]
      · simp [hs]
    · intro k hk
      show keyLookup (InstanceRegistry.update_status r id status pid now).2.instances k = _
      have h2 : (InstanceRegistry.update_status r id status pid now).2.instances =
          keyModify r.instances id (fun i => updStatusFields i status pid now) := by
        simp [InstanceRegistry.update_status, hmem]
      rw [h2, keyLookup_keyModify_ne hk]
      rfl
  · intro hget
    have hmem : keyMem r.instances id = false := by
      by_contra hc
      have : keyMem r.instances id = true := by
        revert hc
        cases keyMem r.instances id <;> simp
      rcases keyMem_iff_lookup.mp this with ⟨v, hv⟩
      rw [show keyLookup r.instances id = r.get id from rfl, hget] at hv
      exact Option.noConfusion hv
    constructor
    · refine ⟨"Instance " ++ id ++ " not found", ?_⟩
      simp [InstanceRegistry.update_status, hmem]
    · simp [InstanceRegistry.update_status, hmem]

/-- Witness for C7: updating the stored stopped instance to Running sets the
pid and the start time. -/
theorem update_status_spec_witness :
    (regOne.update_status "a" ServiceStatus.running (some 7) 3).1 = Except.ok () ∧
    (regOne.update_status "a" ServiceStatus.running (some 7) 3).2.get "a" = some
      { instStopped with
        status := ServiceStatus.running
        pid := some 7
        started_at := some 3 } := by
  have h := (update_status_spec regOne "a" ServiceStatus.running (some 7) 3).1
    instStopped (by decide)
  refine ⟨h.1, ?_⟩
  rw [h.2.1]
  decide

/-- C8: a send reports exactly the current subscriber count and is a failure-
free no-op reporting 0 with no subscribers; with subscribers, every pending
queue receives its own copy of the same event; a new subscription starts with
an empty pending queue, so each handle observes only events published after
it was created. -/
theorem event_bus_spec (bus : EventBus) (event : ServiceEvent) :
    (bus.send event).1 = bus.subscriber_count ∧
    (bus.queues = [] → bus.send event = (0, bus)) ∧
    (bus.subscribe = (bus.queues.length, ⟨bus.capacity, bus.queues ++ [[]]⟩)) ∧
    (bus.queues ≠ [] →
      (bus.send event).2.queues =
        bus.queues.map (fun q => pushBounded bus.capacity q event)) := by
  refine ⟨?_, ?_, rfl, ?_⟩
  · by_cases h : bus.queues.isEmpty
    · have h0 : bus.queues = [] := List.isEmpty_iff.mp h
      simp [EventBus.send, EventBus.subscriber_count, h, h0]
    · simp [EventBus.send, EventBus.subscriber_count, h]
  · intro h
    have h1 : bus.queues.isEmpty = true := by
      rw [h]
      rfl
    simp [EventBus.send, h1]
  · intro h
    have h1 : bus.queues.isEmpty = false := by
      cases hq : bus.queues with
      | nil => exact absurd hq h
      | cons a l => rfl
    simp [EventBus.send, h1]

/-- Event bus reached by subscribing twice to a fresh bus of capacity 16. -/
def busTwo : EventBus := ⟨16, [[], []]⟩

/-- Sample event for the event-bus witness. -/
def evSample : ServiceEvent := ServiceEvent.instanceCreated "a" "tmplA"

/-- Witness for C8, covering the concrete scenario: zero subscribers give
delivery count 0; after two subscriptions one publish is counted twice and
both pending queues hold an identical copy of the event. -/
theorem event_bus_spec_witness :
    ((EventBus.new 16).send evSample).1 = 0 ∧
    ((EventBus.new 16).subscribe.2.subscribe.2 = busTwo) ∧
    (busTwo.send evSample).1 = 2 ∧
    (busTwo.send evSample).2.queues = [[evSample], [evSample]] := by
  refine ⟨?_, by decide, ?_, ?_⟩
  · have h := (event_bus_spec (EventBus.new 16) evSample).1
    rw [h]
    decide
  · have h := (event_bus_spec busTwo evSample).1
    rw [h]
    decide
  · have h := (event_bus_spec busTwo evSample).2.2.2 (by decide)
    rw [h]
    decide

theorem start_state_cases (env : Env) (s : CoreState) (id : String) :
    (UsmCore.start_instance env s id).state = s ∨
    (∃ inst pid, s.instances.get id = some inst ∧
      (UsmCore.start_instance env s id).state =
        { s with instances := ⟨keyModify s.instances.instances id (fun _ =>
          { inst with
            status := ServiceStatus.running
            pid := some pid
            started_at := some env.now })⟩ }) := by
  cases hget : s.instances.get id with
  | none =>
    left
    simp [UsmCore.start_instance, hget]
  | some inst =>
    cases htmpl : s.templates.get inst.template_id with
    | none =>
      left
      simp [UsmCore.start_instance, hget, htmpl]
    | some template =>
      cases hstart : env.startWithPort (template.build_start_command inst)
          inst.working_dir (some inst.port) with
      | error e =>
        left
        simp [UsmCore.start_instance, hget, htmpl, hstart]
      | ok pid =>
        right
        exact ⟨inst, pid, rfl, by simp [UsmCore.start_instance, hget, htmpl, hstart]⟩

theorem stop_state_cases (env : Env) (s : CoreState) (id : String) :
    (UsmCore.stop_instance env s id).state = s ∨
    (∃ inst, s.instances.get id = some inst ∧
      (UsmCore.stop_instance env s id).state =
        { s with instances := ⟨keyModify s.instances.instances id (fun _ =>
          { inst with
            status := ServiceStatus.stopped
            pid := none
            started_at := none })⟩ }) := by
  cases hget : s.instances.get id with
  | none =>
    left
    simp [UsmCore.stop_instance, hget]
  | some inst =>
    by_cases hrun : inst.status = ServiceStatus.running
    · have hcond : ¬ inst.status ≠ ServiceStatus.running := by
        simp [hrun]
      cases hpid : inst.pid with
      | none =>
        right
        refine ⟨inst, rfl, ?_⟩
        simp [UsmCore.stop_instance, hget, hcond, hpid]
      | some pid =>
        cases htmpl : s.templates.get inst.template_id with
        | none =>
          cases hkill : env.kill pid with
          | error e =>
            left
            simp [UsmCore.stop_instance, hget, hcond, hpid, htmpl, hkill]
          | ok u =>
            right
            refine ⟨inst, rfl, ?_⟩
            simp [UsmCore.stop_instance, hget, hcond, hpid, htmpl, hkill]
        | some tmpl =>
          cases hsc : tmpl.stop_command with
          | none =>
            cases hkill : env.kill pid with
            | error e =>
              left
              simp [UsmCore.stop_instance, hget, hcond, hpid, htmpl, hsc, hkill]
            | ok u =>
              right
              refine ⟨inst, rfl, ?_⟩
              simp [UsmCore.stop_instance, hget, hcond, hpid, htmpl, hsc, hkill]
          | some stopCmd =>
            cases hexec : env.exec (strReplace stopCmd "{pid}" (toString pid)) with
            | error e =>
              left
              simp [UsmCore.stop_instance, hget, hcond, hpid, htmpl, hsc, hexec]
            | ok u =>
              right
              refine ⟨inst, rfl, ?_⟩
              simp [UsmCore.stop_instance, hget, hcond, hpid, htmpl, hsc, hexec]
    · left
      simp [UsmCore.stop_instance, hget, hrun]

theorem create_state_cases (env : Env) (s : CoreState) (config : InstanceConfig) :
    (UsmCore.create_instance env s config).state = s ∨
    (∃ inst, ServiceInstance.from_config config env.now = Except.ok inst ∧
      keyMem s.instances.instances inst.id = false ∧
      findPort s.instances.instances inst.port = none ∧
      (UsmCore.create_instance env s config).state =
        { s with instances := ⟨(inst.id, inst) :: s.instances.instances⟩ }) := by
  cases htmpl : s.templates.get config.template_id with
  | none =>
    left
    simp [UsmCore.create_instance, htmpl]
  | some template =>
    by_cases hmulti : (!template.supports_multiple
        && s.instances.has_instances_for_template config.template_id) = true
    · left
      simp [UsmCore.create_instance, htmpl, hmulti]
    · cases hfc : ServiceInstance.from_config config env.now with
      | error e =>
        left
        simp [UsmCore.create_instance, htmpl, hmulti, hfc]
      | ok inst =>
        by_cases hmem : keyMem s.instances.instances inst.id = true
        · left
          simp [UsmCore.create_instance, InstanceRegistry.add, htmpl, hmulti, hfc, hmem]
        · have hmem' : keyMem s.instances.instances inst.id = false := by
            revert hmem
            cases keyMem s.instances.instances inst.id <;> simp
          cases hfp : findPort s.instances.instances inst.port with
          | some existing =>
            left
            simp [UsmCore.create_instance, InstanceRegistry.add, htmpl, hmulti, hfc,
              hmem', hfp]
          | none =>
            right
            refine ⟨inst, rfl, hmem', hfp, ?_⟩
            cases hsave : env.saveInstances with
            | error e =>
              simp [UsmCore.create_instance, InstanceRegistry.add, htmpl, hmulti, hfc,
                hmem', hfp, hsave]
            | ok u =>
              simp [UsmCore.create_instance, InstanceRegistry.add, htmpl, hmulti, hfc,
                hmem', hfp, hsave]

theorem remove_state_cases (env : Env) (s : CoreState) (id : String) :
    (UsmCore.remove_instance env s id).state = (UsmCore.stop_instance env s id).state ∨
    (UsmCore.remove_instance env s id).state =
      { (UsmCore.stop_instance env s id).state with instances :=
        ⟨keyErase (UsmCore.stop_instance env s id).state.instances.instances id⟩ } := by
  by_cases hmem : keyMem (UsmCore.stop_instance env s id).state.instances.instances id = true
  · right
    cases hsave : env.saveInstances with
    | error e =>
      simp [UsmCore.remove_instance, InstanceRegistry.removeInst, hmem, hsave]
    | ok u =>
      simp [UsmCore.remove_instance, InstanceRegistry.removeInst, hmem, hsave]
  · left
    have hmem' : keyMem (UsmCore.stop_instance env s id).state.instances.instances id
        = false := by
      revert hmem
      cases keyMem (UsmCore.stop_instance env s id).state.instances.instances id <;> simp
    simp [UsmCore.remove_instance, InstanceRegistry.removeInst, hmem']

theorem portUnique_erase {l : List (String × ServiceInstance)} {k : String}
    (h : portUnique l) : portUnique (keyErase l k) :=
  List.Pairwise.sublist (keyErase_sublist l k) h

theorem portUnique_cons {l : List (String × ServiceInstance)}
    {inst : ServiceInstance} (h : portUnique l)
    (hfp : findPort l inst.port = none) : portUnique ((inst.id, inst) :: l) := by
  apply List.pairwise_cons.mpr
  refine ⟨?_, h⟩
  intro b hb
  exact fun hbeq => (findPort_eq_none hfp b hb) hbeq.symm

/-- C1: port uniqueness is an invariant: it is preserved by every registry
mutation (add, remove, update_status) and every orchestrator operation
(create, start, stop, remove); add fails with a conflict whenever the id
already exists or the port is held by another stored instance, and any
failing add leaves the registry unchanged. -/
theorem port_uniqueness_invariant :
    (∀ (r : InstanceRegistry) (inst : ServiceInstance), portUnique r.instances →
      portUnique (r.add inst).2.instances) ∧
    (∀ (r : InstanceRegistry) (inst : ServiceInstance),
      (keyMem r.instances inst.id = true ∨
        ∃ p ∈ r.instances, p.1 ≠ inst.id ∧ p.2.port = inst.port) →
      (∃ e, (r.add inst).1 = Except.error e) ∧ (r.add inst).2 = r) ∧
    (∀ (r : InstanceRegistry) (inst : ServiceInstance) (e : String),
      (r.add inst).1 = Except.error e → (r.add inst).2 = r) ∧
    (∀ (r : InstanceRegistry) (id : String), portUnique r.instances →
      portUnique (r.removeInst id).2.instances) ∧
    (∀ (r : InstanceRegistry) (id : String) (st : ServiceStatus) (pid : Option Nat)
      (now : Nat), portUnique r.instances →
      portUnique (r.update_status id st pid now).2.instances) ∧
    (∀ (env : Env) (s : CoreState) (config : InstanceConfig),
      portUnique s.instances.instances →
      portUnique (UsmCore.create_instance env s config).state.instances.instances) ∧
    (∀ (env : Env) (s : CoreState) (id : String), portUnique s.instances.instances →
      portUnique (UsmCore.start_instance env s id).state.instances.instances) ∧
    (∀ (env : Env) (s : CoreState) (id : String), portUnique s.instances.instances →
      portUnique (UsmCore.stop_instance env s id).state.instances.instances) ∧
    (∀ (env : Env) (s : CoreState) (id : String), portUnique s.instances.instances →
      portUnique (UsmCore.remove_instance env s id).state.instances.instances) := by
  have hadd : ∀ (r : InstanceRegistry) (inst : ServiceInstance), portUnique r.instances →
      portUnique (r.add inst).2.instances := by
    intro r inst h
    by_cases hmem : keyMem r.instances inst.id = true
    · simpa [InstanceRegistry.add, hmem] using h
    · have hmem' : keyMem r.instances inst.id = false := by
        revert hmem
        cases keyMem r.instances inst.id <;> simp
      cases hfp : findPort r.instances inst.port with
      | some existing => simpa [InstanceRegistry.add, hmem', hfp] using h
      | none =>
        have : (r.add inst).2.instances = (inst.id, inst) :: r.instances := by
          simp [InstanceRegistry.add, hmem', hfp]
        rw [this]
        exact portUnique_cons h hfp
  have hstop : ∀ (env : Env) (s : CoreState) (id : String),
      portUnique s.instances.instances →
      portUnique (UsmCore.stop_instance env s id).state.instances.instances := by
    intro env s id h
    rcases stop_state_cases env s id with hs | ⟨inst, hget, hs⟩
    · rw [hs]
      exact h
    · rw [hs]
      apply portUnique_keyModify h
      intro v hv
      have hvi : v = inst := by
        have hv2 : s.instances.get id = some v := hv
        rw [hget] at hv2
        exact (Option.some.inj hv2).symm
      rw [hvi]
  refine ⟨hadd, ?_, ?_, ?_, ?_, ?_, ?_, hstop, ?_⟩
  · intro r inst hconf
    rcases hconf with hmem | ⟨p, hp, hne, hport⟩
    · constructor
      · exact ⟨"Instance " ++ inst.id ++ " already exists",
          by simp [InstanceRegistry.add, hmem]⟩
      · simp [InstanceRegistry.add, hmem]
    · by_cases hmem : keyMem r.instances inst.id = true
      · constructor
        · exact ⟨"Instance " ++ inst.id ++ " already exists",
            by simp [InstanceRegistry.add, hmem]⟩
        · simp [InstanceRegistry.add, hmem]
      · have hmem' : keyMem r.instances inst.id = false := by
          revert hmem
          cases keyMem r.instances inst.id <;> simp
        rcases findPort_isSome hp hport with ⟨v, hv⟩
        constructor
        · exact ⟨"Port already in use by instance " ++ v.id,
            by simp [InstanceRegistry.add, hmem', hv]⟩
        · simp [InstanceRegistry.add, hmem', hv]
  · intro r inst e herr
    by_cases hmem : keyMem r.instances inst.id = true
    · simp [InstanceRegistry.add, hmem]
    · have hmem' : keyMem r.instances inst.id = false := by
        revert hmem
        cases keyMem r.instances inst.id <;> simp
      cases hfp : findPort r.instances inst.port with
      | some existing => simp [InstanceRegistry.add, hmem', hfp]
      | none => simp [InstanceRegistry.add, hmem', hfp] at herr
  · intro r id h
    by_cases hmem : keyMem r.instances id = true
    · have : (r.removeInst id).2.instances = keyErase r.instances id := by
        simp [InstanceRegistry.removeInst, hmem]
      rw [this]
      exact portUnique_erase h
    · have hmem' : keyMem r.instances id = false := by
        revert hmem
        cases keyMem r.instances id <;> simp
      simpa [InstanceRegistry.removeInst, hmem'] using h
  · intro r id st pid now h
    by_cases hmem : keyMem r.instances id = true
    · have : (r.update_status id st pid now).2.instances =
          keyModify r.instances id (fun i => updStatusFields i st pid now) := by
        simp [InstanceRegistry.update_status, hmem]
      rw [this]
      apply portUnique_keyModify h
      intro v _
      unfold updStatusFields
      by_cases hs : st = ServiceStatus.running
      · by_cases ha : (v.pid ≠ pid → v.started_at = none)
        · simp [hs]
          split <;> rfl
        · simp [hs]
          split <;> rfl
      · simp [hs]
    · have hmem' : keyMem r.instances id = false := by
        revert hmem
        cases keyMem r.instances id <;> simp
      simpa [InstanceRegistry.update_status, hmem'] using h
  · intro env s config h
    rcases create_state_cases env s config with hs | ⟨inst, _, _, hfp, hs⟩
    · rw [hs]
      exact h
    · rw [hs]
      exact portUnique_cons h hfp
  · intro env s id h
    rcases start_state_cases env s id with hs | ⟨inst, pid, hget, hs⟩
    · rw [hs]
      exact h
    · rw [hs]
      apply portUnique_keyModify h
      intro v hv
      have hvi : v = inst := by
        have hv2 : s.instances.get id = some v := hv
        rw [hget] at hv2
        exact (Option.some.inj hv2).symm
      rw [hvi]
  · intro env s id h
    rcases remove_state_cases env s id with hs | hs
    · rw [hs]
      exact hstop env s id h
    · rw [hs]
      exact portUnique_erase (hstop env s id h)

/-- Registry with two sample instances on distinct ports. -/
def regTwo : InstanceRegistry := ⟨[("a", instStopped), ("b", instRunning)]⟩

/-- Fresh instance on a new port for the C1 witness. -/
def instNew : ServiceInstance := { instStopped with id := "c", port := 9002 }

/-- Duplicate-port instance for the C1 witness conflict case. -/
def instDupPort : ServiceInstance := { instStopped with id := "d", port := 9001 }

/-- Witness for C1: adding a fresh instance preserves port uniqueness, and
adding an instance on an occupied port fails and leaves the registry
unchanged. -/
theorem port_uniqueness_invariant_witness :
    portUnique regTwo.instances ∧
    portUnique (regTwo.add instNew).2.instances ∧
    (∃ e, (regTwo.add instDupPort).1 = Except.error e) ∧
    (regTwo.add instDupPort).2 = regTwo := by
  have h1 : portUnique regTwo.instances := by
    unfold portUnique
    decide
  have h2 := port_uniqueness_invariant.1 regTwo instNew h1
  have h3 := port_uniqueness_invariant.2.1 regTwo instDupPort
    (Or.inr ⟨("b", instRunning), by decide, by decide, by decide⟩)
  exact ⟨h1, h2, h3.1, h3.2⟩

theorem stop_not_running (env : Env) (s : CoreState) (id : String)
    (inst : ServiceInstance) (hget : s.instances.get id = some inst)
    (hnr : inst.status ≠ ServiceStatus.running) :
    UsmCore.stop_instance env s id = ⟨Except.ok (), s, []⟩ := by
  simp [UsmCore.stop_instance, hget, hnr]

theorem stop_ok_cases (env : Env) (s : CoreState) (id : String)
    (h : (UsmCore.stop_instance env s id).res = Except.ok ()) :
    ∃ inst, s.instances.get id = some inst ∧
      ((UsmCore.stop_instance env s id).state = s ∧
          inst.status ≠ ServiceStatus.running ∨
        (UsmCore.stop_instance env s id).state.instances.get id =
          some { inst with
            status := ServiceStatus.stopped
            pid := none
            started_at := none }) := by
  cases hget : s.instances.get id with
  | none => simp [UsmCore.stop_instance, hget] at h
  | some inst =>
    refine ⟨inst, rfl, ?_⟩
    by_cases hrun : inst.status = ServiceStatus.running
    · have hcond : ¬ inst.status ≠ ServiceStatus.running := by
        simp [hrun]
      right
      have hmod : ∀ inst' : ServiceInstance,
          (⟨keyModify s.instances.instances id (fun _ => inst')⟩ :
            InstanceRegistry).get id = some inst' := by
        intro inst'
        show keyLookup (keyModify s.instances.instances id (fun _ => inst')) id = _
        rw [keyLookup_keyModify_self]
        have hg : keyLookup s.instances.instances id = some inst := hget
        rw [hg]
        rfl
      cases hpid : inst.pid with
      | none =>
        simp only [UsmCore.stop_instance, hget, hcond, if_neg, hpid]
        exact hmod _
      | some pid =>
        cases htmpl : s.templates.get inst.template_id with
        | none =>
          cases hkill : env.kill pid with
          | error e =>
            simp [UsmCore.stop_instance, hget, hcond, hpid, htmpl, hkill] at h
          | ok u =>
            simp only [UsmCore.stop_instance, hget, hcond, if_neg, hpid, htmpl, hkill]
            exact hmod _
        | some tmpl =>
          cases hsc : tmpl.stop_command with
          | none =>
            cases hkill : env.kill pid with
            | error e =>
              simp [UsmCore.stop_instance, hget, hcond, hpid, htmpl, hsc, hkill] at h
            | ok u =>
              simp only [UsmCore.stop_instance, hget, hcond, if_neg, hpid, htmpl, hsc,
                hkill]
              exact hmod _
          | some stopCmd =>
            cases hexec : env.exec (strReplace stopCmd "{pid}" (toString pid)) with
            | error e =>
              simp [UsmCore.stop_instance, hget, hcond, hpid, htmpl, hsc, hexec] at h
            | ok u =>
              simp only [UsmCore.stop_instance, hget, hcond, if_neg, hpid, htmpl, hsc,
                hexec]
              exact hmod _
    · left
      exact ⟨by simp [UsmCore.stop_instance, hget, hrun], hrun⟩

/-- C6: stopping an instance whose status is Stopped succeeds, makes no
monitor call (the action trace is empty) and leaves the state unchanged; and
stopping twice equals stopping once: after any successful stop, a second stop
succeeds as a no-op on the same state. -/
theorem stop_stopped_idempotent :
    (∀ (env : Env) (s : CoreState) (id : String) (inst : ServiceInstance),
      s.instances.get id = some inst → inst.status = ServiceStatus.stopped →
      UsmCore.stop_instance env s id = ⟨Except.ok (), s, []⟩) ∧
    (∀ (env : Env) (s s1 : CoreState) (id : String) (tr : List CoreAction),
      UsmCore.stop_instance env s id = ⟨Except.ok (), s1, tr⟩ →
      UsmCore.stop_instance env s1 id = ⟨Except.ok (), s1, []⟩) := by
  constructor
  · intro env s id inst hget hstopped
    apply stop_not_running env s id inst hget
    rw [hstopped]
    decide
  · intro env s s1 id tr h
    have hres : (UsmCore.stop_instance env s id).res = Except.ok () := by
      rw [h]
    have hstate : (UsmCore.stop_instance env s id).state = s1 := by
      rw [h]
    rcases stop_ok_cases env s id hres with ⟨inst, hget, hcase⟩
    rcases hcase with ⟨hseq, hnr⟩ | hmod
    · have hs1 : s1 = s := by
        rw [← hstate, hseq]
      rw [hs1]
      exact stop_not_running env s id inst hget hnr
    · rw [hstate] at hmod
      exact stop_not_running env s1 id
        { inst with status := ServiceStatus.stopped, pid := none, started_at := none }
        hmod
        (by exact (by decide : ServiceStatus.stopped ≠ ServiceStatus.running))

/-- Witness for C6: stopping the stored stopped instance is an exact no-op. -/
theorem stop_stopped_idempotent_witness :
    UsmCore.stop_instance envOk stateOne "a" = ⟨Except.ok (), stateOne, []⟩ ∧
    instStopped.status = ServiceStatus.stopped :=
  ⟨stop_stopped_idempotent.1 envOk stateOne "a" instStopped (by decide) (by decide),
   by decide⟩

/-- C9: remove_template fails and changes nothing while any instance
references the template; with no references it fails with NotFound when the
template is absent; it succeeds, removing exactly that template and touching
no instance, precisely when the template exists, nothing references it (and
the persistence collaborator accepts the save); success implies the template
existed and was unreferenced. -/
theorem remove_template_spec (env : Env) (s : CoreState) (id : String) :
    (s.instances.has_instances_for_template id = true →
      (∃ e, (UsmCore.remove_template env s id).res = Except.error e) ∧
      (UsmCore.remove_template env s id).state = s ∧
      (UsmCore.remove_template env s id).trace = []) ∧
    (s.instances.has_instances_for_template id = false →
      keyMem s.templates.templates id = false →
      (∃ e, (UsmCore.remove_template env s id).res = Except.error e) ∧
      (UsmCore.remove_template env s id).state = s ∧
      (UsmCore.remove_template env s id).trace = []) ∧
    (s.instances.has_instances_for_template id = false →
      keyMem s.templates.templates id = true →
      env.saveTemplates = Except.ok () →
      (UsmCore.remove_template env s id).res = Except.ok () ∧
      (UsmCore.remove_template env s id).state =
        ⟨⟨keyErase s.templates.templates id⟩, s.instances⟩ ∧
      (UsmCore.remove_template env s id).trace =
        [CoreAction.persistTemplates,
         CoreAction.publish (ServiceEvent.templateRemoved id)]) ∧
    ((UsmCore.remove_template env s id).res = Except.ok () →
      keyMem s.templates.templates id = true ∧
      s.instances.has_instances_for_template id = false) := by
  refine ⟨?_, ?_, ?_, ?_⟩
  · intro href
    refine ⟨⟨"Cannot remove template " ++ id ++ ": instances exist", ?_⟩, ?_, ?_⟩
    · simp [UsmCore.remove_template, href]
    · simp [UsmCore.remove_template, href]
    · simp [UsmCore.remove_template, href]
  · intro href hmem
    refine ⟨⟨"Template " ++ id ++ " not found", ?_⟩, ?_, ?_⟩
    · simp [UsmCore.remove_template, TemplateRegistry.remove, href, hmem]
    · simp [UsmCore.remove_template, TemplateRegistry.remove, href, hmem]
    · simp [UsmCore.remove_template, TemplateRegistry.remove, href, hmem]
  · intro href hmem hsave
    refine ⟨?_, ?_, ?_⟩
    · simp [UsmCore.remove_template, TemplateRegistry.remove, href, hmem, hsave]
    · simp [UsmCore.remove_template, TemplateRegistry.remove, href, hmem, hsave]
    · simp [UsmCore.remove_template, TemplateRegistry.remove, href, hmem, hsave]
  · intro hok
    by_cases href : s.instances.has_instances_for_template id = true
    · simp [UsmCore.remove_template, href] at hok
    · have href' : s.instances.has_instances_for_template id = false := by
        revert href
        cases s.instances.has_instances_for_template id <;> simp
      by_cases hmem : keyMem s.templates.templates id = true
      · exact ⟨hmem, href'⟩
      · have hmem' : keyMem s.templates.templates id = false := by
          revert hmem
          cases keyMem s.templates.templates id <;> simp
        simp [UsmCore.remove_template, TemplateRegistry.remove, href', hmem'] at hok

/-- Core state with the sample template and no instances. -/
def stateFree : CoreState := ⟨⟨[("tmplA", tmplA)]⟩, ⟨[]⟩⟩

/-- Witness for C9: removal is refused while the sample instance references
the template, and succeeds once no instance does. -/
theorem remove_template_spec_witness :
    (∃ e, (UsmCore.remove_template envOk stateOne "tmplA").res = Except.error e) ∧
    (UsmCore.remove_template envOk stateOne "tmplA").state = stateOne ∧
    (UsmCore.remove_template envOk stateFree "tmplA").res = Except.ok () ∧
    (UsmCore.remove_template envOk stateFree "tmplA").state = ⟨⟨[]⟩, ⟨[]⟩⟩ := by
  have h1 := (remove_template_spec envOk stateOne "tmplA").1 (by decide)
  have h2 := (remove_template_spec envOk stateFree "tmplA").2.2.1 (by decide) (by decide) rfl
  refine ⟨h1.1, h1.2.1, h2.1, ?_⟩
  rw [h2.2.1]
  decide

/-- Counterexample for C2: at the core level, starting the already-Running
sample instance succeeds but spawns a new process (the trace holds a monitor
spawn) and overwrites pid and started_at, so start is not a no-op there. -/
theorem start_running_not_noop_cex :
    instRunning.status = ServiceStatus.running ∧
    instRunning.pid = some 7 ∧
    (UsmCore.start_instance envOk stateRunning "b").res = Except.ok () ∧
    (UsmCore.start_instance envOk stateRunning "b").trace =
      [CoreAction.monStartWithPort "run --port 9001" none (some 9001),
       CoreAction.publish
         (ServiceEvent.statusChanged "b" ServiceStatus.running (some 42))] ∧
    (UsmCore.start_instance envOk stateRunning "b").state.instances.get "b" =
      some { instRunning with pid := some 42, started_at := some 5 } := by
  refine ⟨by decide, by decide, by decide, by decide, by decide⟩

/-- C2 (amended): the idempotent no-op holds at the HTTP boundary: the start
handler short-circuits with success, no monitor call and unchanged state when
the instance is already Running, and the stop handler likewise when it is not
Running; the core-level start_instance instead issues the monitor spawn
unconditionally whenever the instance and its template resolve. -/
theorem http_idempotent_amended :
    (∀ (env : Env) (s : CoreState) (id : String) (inst : ServiceInstance),
      s.instances.get id = some inst → inst.status = ServiceStatus.running →
      Server.start_instance env s id = ⟨Except.ok inst.pid, s, []⟩) ∧
    (∀ (env : Env) (s : CoreState) (id : String) (inst : ServiceInstance),
      s.instances.get id = some inst → inst.status ≠ ServiceStatus.running →
      Server.stop_instance env s id = ⟨Except.ok (), s, []⟩) ∧
    (∀ (env : Env) (s : CoreState) (id : String) (inst : ServiceInstance)
      (tmpl : ServiceTemplate),
      s.instances.get id = some inst → s.templates.get inst.template_id = some tmpl →
      ∃ rest, (UsmCore.start_instance env s id).trace =
        CoreAction.monStartWithPort (tmpl.build_start_command inst)
          inst.working_dir (some inst.port) :: rest) := by
  refine ⟨?_, ?_, ?_⟩
  · intro env s id inst hget hrun
    simp [Server.start_instance, hget, hrun]
  · intro env s id inst hget hnr
    simp [Server.stop_instance, hget, hnr]
  · intro env s id inst tmpl hget htmpl
    cases hstart : env.startWithPort (tmpl.build_start_command inst)
        inst.working_dir (some inst.port) with
    | error e =>
      exact ⟨[], by simp [UsmCore.start_instance, hget, htmpl, hstart]⟩
    | ok pid =>
      exact ⟨[CoreAction.publish
          (ServiceEvent.statusChanged id ServiceStatus.running (some pid))],
        by simp [UsmCore.start_instance, hget, htmpl, hstart]⟩

/-- Witness for the amended C2 at concrete states. -/
theorem http_idempotent_amended_witness :
    Server.start_instance envOk stateRunning "b" = ⟨Except.ok (some 7), stateRunning, []⟩ ∧
    Server.stop_instance envOk stateOne "a" = ⟨Except.ok (), stateOne, []⟩ := by
  constructor
  · have h := http_idempotent_amended.1 envOk stateRunning "b" instRunning
      (by decide) (by decide)
    rw [h]
    decide
  · exact http_idempotent_amended.2.1 envOk stateOne "a" instStopped
      (by decide) (by decide)

theorem start_trace_no_persist (env : Env) (s : CoreState) (id : String) :
    CoreAction.persistInstances ∉ (UsmCore.start_instance env s id).trace ∧
    CoreAction.persistTemplates ∉ (UsmCore.start_instance env s id).trace := by
  cases hget : s.instances.get id with
  | none => simp [UsmCore.start_instance, hget]
  | some inst =>
    cases htmpl : s.templates.get inst.template_id with
    | none => simp [UsmCore.start_instance, hget, htmpl]
    | some template =>
      cases hstart : env.startWithPort (template.build_start_command inst)
          inst.working_dir (some inst.port) with
      | error e => simp [UsmCore.start_instance, hget, htmpl, hstart]
      | ok pid => simp [UsmCore.start_instance, hget, htmpl, hstart]

theorem stop_trace_no_persist (env : Env) (s : CoreState) (id : String) :
    CoreAction.persistInstances ∉ (UsmCore.stop_instance env s id).trace ∧
    CoreAction.persistTemplates ∉ (UsmCore.stop_instance env s id).trace := by
  cases hget : s.instances.get id with
  | none => simp [UsmCore.stop_instance, hget]
  | some inst =>
    by_cases hrun : inst.status = ServiceStatus.running
    · have hcond : ¬ inst.status ≠ ServiceStatus.running := by
        simp [hrun]
      cases hpid : inst.pid with
      | none => simp [UsmCore.stop_instance, hget, hcond, hpid]
      | some pid =>
        cases htmpl : s.templates.get inst.template_id with
        | none =>
          cases hkill : env.kill pid with
          | error e => simp [UsmCore.stop_instance, hget, hcond, hpid, htmpl, hkill]
          | ok u => simp [UsmCore.stop_instance, hget, hcond, hpid, htmpl, hkill]
        | some tmpl =>
          cases hsc : tmpl.stop_command with
          | none =>
            cases hkill : env.kill pid with
            | error e =>
              simp [UsmCore.stop_instance, hget, hcond, hpid, htmpl, hsc, hkill]
            | ok u =>
              simp [UsmCore.stop_instance, hget, hcond, hpid, htmpl, hsc, hkill]
          | some stopCmd =>
            cases hexec : env.exec (strReplace stopCmd "{pid}" (toString pid)) with
            | error e =>
              simp [UsmCore.stop_instance, hget, hcond, hpid, htmpl, hsc, hexec]
            | ok u =>
              simp [UsmCore.stop_instance, hget, hcond, hpid, htmpl, hsc, hexec]
    · simp [UsmCore.stop_instance, hget, hrun]

/-- Counterexample for C4: a successful core start publishes StatusChanged
with no persistence action anywhere in its trace, so the
validate-mutate-persist-publish order does not hold for start. -/
theorem start_no_persist_cex :
    (UsmCore.start_instance envOk stateOne "a").res = Except.ok () ∧
    (UsmCore.start_instance envOk stateOne "a").trace =
      [CoreAction.monStartWithPort "run --port 9000" none (some 9000),
       CoreAction.publish
         (ServiceEvent.statusChanged "a" ServiceStatus.running (some 42))] ∧
    CoreAction.persistInstances ∉ (UsmCore.start_instance envOk stateOne "a").trace := by
  refine ⟨by decide, by decide, by decide⟩

/-- C4 (amended): create and remove persist via the config collaborator and
only then publish their event (a successful create traces exactly persist
then publish, a successful remove traces its best-effort stop actions, then
persist, then InstanceRemoved, and likewise remove_template with the template
store); start and stop, by contrast, never persist at all: they publish
StatusChanged directly after the in-memory mutation. -/
theorem persist_before_publish_amended :
    (∀ (env : Env) (s : CoreState) (config : InstanceConfig) (iid : String),
      (UsmCore.create_instance env s config).res = Except.ok iid →
      (UsmCore.create_instance env s config).trace =
        [CoreAction.persistInstances,
         CoreAction.publish (ServiceEvent.instanceCreated iid config.template_id)]) ∧
    (∀ (env : Env) (s : CoreState) (id : String),
      (UsmCore.remove_instance env s id).res = Except.ok () →
      (UsmCore.remove_instance env s id).trace =
        (UsmCore.stop_instance env s id).trace ++
          [CoreAction.persistInstances,
           CoreAction.publish (ServiceEvent.instanceRemoved id)]) ∧
    (∀ (env : Env) (s : CoreState) (id : String),
      CoreAction.persistInstances ∉ (UsmCore.start_instance env s id).trace ∧
      CoreAction.persistTemplates ∉ (UsmCore.start_instance env s id).trace) ∧
    (∀ (env : Env) (s : CoreState) (id : String),
      CoreAction.persistInstances ∉ (UsmCore.stop_instance env s id).trace ∧
      CoreAction.persistTemplates ∉ (UsmCore.stop_instance env s id).trace) ∧
    (∀ (env : Env) (s : CoreState) (id : String),
      (UsmCore.remove_template env s id).res = Except.ok () →
      (UsmCore.remove_template env s id).trace =
        [CoreAction.persistTemplates,
         CoreAction.publish (ServiceEvent.templateRemoved id)]) := by
  refine ⟨?_, ?_, start_trace_no_persist, stop_trace_no_persist, ?_⟩
  · intro env s config iid h
    cases htmpl : s.templates.get config.template_id with
    | none => simp [UsmCore.create_instance, htmpl] at h
    | some template =>
      by_cases hmulti : (!template.supports_multiple
          && s.instances.has_instances_for_template config.template_id) = true
      · simp [UsmCore.create_instance, htmpl, hmulti] at h
      · cases hfc : ServiceInstance.from_config config env.now with
        | error e => simp [UsmCore.create_instance, htmpl, hmulti, hfc] at h
        | ok inst =>
          by_cases hmem : keyMem s.instances.instances inst.id = true
          · simp [UsmCore.create_instance, InstanceRegistry.add, htmpl, hmulti, hfc,
              hmem] at h
          · have hmem' : keyMem s.instances.instances inst.id = false := by
              revert hmem
              cases keyMem s.instances.instances inst.id <;> simp
            cases hfp : findPort s.instances.instances inst.port with
            | some existing =>
              simp [UsmCore.create_instance, InstanceRegistry.add, htmpl, hmulti, hfc,
                hmem', hfp] at h
            | none =>
              cases hsave : env.saveInstances with
              | error e =>
                simp [UsmCore.create_instance, InstanceRegistry.add, htmpl, hmulti,
                  hfc, hmem', hfp, hsave] at h
              | ok u =>
                have hid : iid = inst.id := by
                  have := h
                  simp [UsmCore.create_instance, InstanceRegistry.add, htmpl, hmulti,
                    hfc, hmem', hfp, hsave] at this
                  exact this.symm
                rw [hid]
                simp [UsmCore.create_instance, InstanceRegistry.add, htmpl, hmulti,
                  hfc, hmem', hfp, hsave]
  · intro env s id h
    by_cases hmem : keyMem (UsmCore.stop_instance env s id).state.instances.instances id
        = true
    · cases hsave : env.saveInstances with
      | error e =>
        simp [UsmCore.remove_instance, InstanceRegistry.removeInst, hmem, hsave] at h
      | ok u =>
        simp [UsmCore.remove_instance, InstanceRegistry.removeInst, hmem, hsave]
    · have hmem' : keyMem
          (UsmCore.stop_instance env s id).state.instances.instances id = false := by
        revert hmem
        cases keyMem (UsmCore.stop_instance env s id).state.instances.instances id <;>
          simp
      simp [UsmCore.remove_instance, InstanceRegistry.removeInst, hmem'] at h
  · intro env s id h
    by_cases href : s.instances.has_instances_for_template id = true
    · simp [UsmCore.remove_template, href] at h
    · have href' : s.instances.has_instances_for_template id = false := by
        revert href
        cases s.instances.has_instances_for_template id <;> simp
      by_cases hmem : keyMem s.templates.templates id = true
      · cases hsave : env.saveTemplates with
        | error e =>
          simp [UsmCore.remove_template, TemplateRegistry.remove, href', hmem,
            hsave] at h
        | ok u =>
          simp [UsmCore.remove_template, TemplateRegistry.remove, href', hmem, hsave]
      · have hmem' : keyMem s.templates.templates id = false := by
          revert hmem
          cases keyMem s.templates.templates id <;> simp
        simp [UsmCore.remove_template, TemplateRegistry.remove, href', hmem'] at h

/-- Witness for the amended C4: a successful concrete create traces persist
then publish, and the concrete stop publishes with no persistence action. -/
theorem persist_before_publish_amended_witness :
    (UsmCore.create_instance envOk stateFree cfgSample).trace =
      [CoreAction.persistInstances,
       CoreAction.publish (ServiceEvent.instanceCreated "a" "tmplA")] ∧
    CoreAction.persistInstances ∉ (UsmCore.stop_instance envOk stateRunning "b").trace := by
  constructor
  · have h := persist_before_publish_amended.1 envOk stateFree cfgSample "a" (by decide)
    rw [h]
    decide
  · exact (persist_before_publish_amended.2.2.2.1 envOk stateRunning "b").1

theorem all_keyErase {α : Type} {P : α → Prop} {l : List (String × α)} {k : String}
    (h : ∀ p ∈ l, P p.2) : ∀ p ∈ keyErase l k, P p.2 :=
  fun p hp => h p ((keyErase_sublist l k).subset hp)

theorem from_config_runtime_fields {config : InstanceConfig} {now : Nat}
    {inst : ServiceInstance} (h : ServiceInstance.from_config config now = Except.ok inst) :
    inst.status = ServiceStatus.stopped ∧ inst.pid = none ∧ inst.started_at = none := by
  by_cases h1 : config.instance_id = ""
  · simp [ServiceInstance.from_config, h1] at h
  · by_cases h2 : config.template_id = ""
    · simp [ServiceInstance.from_config, h1, h2] at h
    · simp [ServiceInstance.from_config, h1, h2] at h
      rw [← h]
      exact ⟨rfl, rfl, rfl⟩

/-- Counterexample for C5: update_status called with a Some pid and a
non-Running status succeeds and leaves a stopped instance with a pid set,
breaking the pid-iff-Running biconditional the claim says every operation
preserves. -/
theorem update_status_breaks_pid_inv_cex :
    runtimeInv regOne.instances ∧
    (regOne.update_status "a" ServiceStatus.stopped (some 5) 0).1 = Except.ok () ∧
    (regOne.update_status "a" ServiceStatus.stopped (some 5) 0).2.get "a" =
      some { instStopped with pid := some 5 } ∧
    ¬ runtimeInv (regOne.update_status "a" ServiceStatus.stopped (some 5) 0).2.instances := by
  refine ⟨?_, by decide, by decide, ?_⟩
  · unfold runtimeInv startedIffRunning pidIffRunning
    decide
  · unfold runtimeInv startedIffRunning pidIffRunning
    decide

theorem runtimeInv_keyModify {l : List (String × ServiceInstance)} {k : String}
    {f : ServiceInstance → ServiceInstance} (h : runtimeInv l)
    (hf : ∀ v, keyLookup l k = some v →
      startedIffRunning (f v) ∧ pidIffRunning (f v)) :
    runtimeInv (keyModify l k f) := by
  intro p hp
  rcases mem_keyModify hp with h1 | ⟨v, hv, hpv⟩
  · exact h p h1
  · rw [hpv]
    exact hf v hv

theorem runtimeInv_erase {l : List (String × ServiceInstance)} {k : String}
    (h : runtimeInv l) : runtimeInv (keyErase l k) :=
  fun p hp => h p ((keyErase_sublist l k).subset hp)

theorem runtime_fields_stopped {i : ServiceInstance}
    (hst : i.status = ServiceStatus.stopped) (hpd : i.pid = none)
    (hsa : i.started_at = none) : startedIffRunning i ∧ pidIffRunning i := by
  unfold startedIffRunning pidIffRunning
  rw [hst, hpd, hsa]
  simp

theorem runtime_fields_running {i : ServiceInstance} {p t : Nat}
    (hst : i.status = ServiceStatus.running) (hpd : i.pid = some p)
    (hsa : i.started_at = some t) : startedIffRunning i ∧ pidIffRunning i := by
  unfold startedIffRunning pidIffRunning
  rw [hst, hpd, hsa]
  simp

/-- C5 (amended): the started_at biconditional is preserved (indeed
re-established) by update_status for every pid argument, and both
biconditionals are preserved by create, start, stop and remove; the pid
biconditional is preserved by update_status exactly under the extra premise
that the pid argument is supplied iff the new status is Running — an
arbitrary pid argument can break it. -/
theorem runtime_invariant_amended :
    (∀ (i : ServiceInstance) (st : ServiceStatus) (pid : Option Nat) (now : Nat),
      startedIffRunning (updStatusFields i st pid now)) ∧
    (∀ (i : ServiceInstance) (st : ServiceStatus) (pid : Option Nat) (now : Nat),
      (pid.isSome = true ↔ st = ServiceStatus.running) →
      pidIffRunning (updStatusFields i st pid now)) ∧
    (∀ (r : InstanceRegistry) (id : String) (st : ServiceStatus) (pid : Option Nat)
      (now : Nat), runtimeInv r.instances →
      (pid.isSome = true ↔ st = ServiceStatus.running) →
      runtimeInv (r.update_status id st pid now).2.instances) ∧
    (∀ (r : InstanceRegistry) (id : String) (st : ServiceStatus) (pid : Option Nat)
      (now : Nat), (∀ p ∈ r.instances, startedIffRunning p.2) →
      ∀ p ∈ (r.update_status id st pid now).2.instances, startedIffRunning p.2) ∧
    (∀ (env : Env) (s : CoreState) (config : InstanceConfig),
      runtimeInv s.instances.instances →
      runtimeInv (UsmCore.create_instance env s config).state.instances.instances) ∧
    (∀ (env : Env) (s : CoreState) (id : String), runtimeInv s.instances.instances →
      runtimeInv (UsmCore.start_instance env s id).state.instances.instances) ∧
    (∀ (env : Env) (s : CoreState) (id : String), runtimeInv s.instances.instances →
      runtimeInv (UsmCore.stop_instance env s id).state.instances.instances) ∧
    (∀ (env : Env) (s : CoreState) (id : String), runtimeInv s.instances.instances →
      runtimeInv (UsmCore.remove_instance env s id).state.instances.instances) := by
  have hstarted : ∀ (i : ServiceInstance) (st : ServiceStatus) (pid : Option Nat)
      (now : Nat), startedIffRunning (updStatusFields i st pid now) := by
    intro i st pid now
    unfold startedIffRunning updStatusFields
    by_cases hs : st = ServiceStatus.running
    · cases ha : i.started_at with
      | none => simp [hs, ha]
      | some t => simp [hs, ha]
    · simp [hs]
  have hpid : ∀ (i : ServiceInstance) (st : ServiceStatus) (pid : Option Nat)
      (now : Nat), (pid.isSome = true ↔ st = ServiceStatus.running) →
      pidIffRunning (updStatusFields i st pid now) := by
    intro i st pid now h
    unfold pidIffRunning updStatusFields
    by_cases hs : st = ServiceStatus.running
    · cases ha : i.started_at with
      | none => simp [hs, ha, h.mpr hs]
      | some t => simp [hs, ha, h.mpr hs]
    · cases hp : pid with
      | none => simp [hs, hp]
      | some q =>
        exfalso
        apply hs
        apply h.mp
        rw [hp]
        rfl
  have hstop : ∀ (env : Env) (s : CoreState) (id : String),
      runtimeInv s.instances.instances →
      runtimeInv (UsmCore.stop_instance env s id).state.instances.instances := by
    intro env s id h
    rcases stop_state_cases env s id with hs | ⟨inst, hget, hs⟩
    · rw [hs]
      exact h
    · rw [hs]
      apply runtimeInv_keyModify h
      intro v hv
      exact runtime_fields_stopped rfl rfl rfl
  refine ⟨hstarted, hpid, ?_, ?_, ?_, ?_, hstop, ?_⟩
  · intro r id st pid now h hiff
    by_cases hmem : keyMem r.instances id = true
    · have heq : (r.update_status id st pid now).2.instances =
          keyModify r.instances id (fun i => updStatusFields i st pid now) := by
        simp [InstanceRegistry.update_status, hmem]
      rw [heq]
      apply runtimeInv_keyModify h
      intro v hv
      exact ⟨hstarted v st pid now, hpid v st pid now hiff⟩
    · have hmem' : keyMem r.instances id = false := by
        revert hmem
        cases keyMem r.instances id <;> simp
      simpa [InstanceRegistry.update_status, hmem'] using h
  · intro r id st pid now h
    by_cases hmem : keyMem r.instances id = true
    · have heq : (r.update_status id st pid now).2.instances =
          keyModify r.instances id (fun i => updStatusFields i st pid now) := by
        simp [InstanceRegistry.update_status, hmem]
      rw [heq]
      apply all_keyModify h
      intro v hv
      exact hstarted v st pid now
    · have hmem' : keyMem r.instances id = false := by
        revert hmem
        cases keyMem r.instances id <;> simp
      simpa [InstanceRegistry.update_status, hmem'] using h
  · intro env s config h
    rcases create_state_cases env s config with hs | ⟨inst, hfc, _, _, hs⟩
    · rw [hs]
      exact h
    · rw [hs]
      intro p hp
      rcases List.mem_cons.mp hp with h1 | h2
      · rcases from_config_runtime_fields hfc with ⟨hst, hpd, hsa⟩
        rw [h1]
        exact runtime_fields_stopped hst hpd hsa
      · exact h p h2
  · intro env s id h
    rcases start_state_cases env s id with hs | ⟨inst, pid, hget, hs⟩
    · rw [hs]
      exact h
    · rw [hs]
      apply runtimeInv_keyModify h
      intro v hv
      exact runtime_fields_running rfl rfl rfl
  · intro env s id h
    rcases remove_state_cases env s id with hs | hs
    · rw [hs]
      exact hstop env s id h
    · rw [hs]
      exact runtimeInv_erase (hstop env s id h)

/-- Witness for the amended C5: a matched Running update on the sample
registry keeps both biconditionals. -/
theorem runtime_invariant_amended_witness :
    runtimeInv regOne.instances ∧
    runtimeInv (regOne.update_status "a" ServiceStatus.running (some 7) 3).2.instances := by
  have h0 : runtimeInv regOne.instances := by
    unfold runtimeInv startedIffRunning pidIffRunning
    decide
  exact ⟨h0, runtime_invariant_amended.2.2.1 regOne "a" ServiceStatus.running
    (some 7) 3 h0 (by decide)⟩

/-- World for the C3 counterexample: the wrapper child 7 is spawned but dies
(nothing is running except pid 9), the PID handshake fails, and port 80
resolves to the running pid 9. -/
def worldDead : ProcWorld :=
  { spawnResult := Except.ok 7
    capturedPid := none
    running := fun p => p == 9
    portPid := fun prt => if prt = 80 then some 9 else none }

/-- Counterexample for C3: on the same world, the macOS backend follows the
contract and returns the port-resolved running pid 9, while the Linux backend
(the trait default) returns the dead child pid 7 and performs no fallback, so
the two implementations do not satisfy an identical contract. -/
theorem linux_contract_cex :
    macosStartProcessWithPort worldDead "c" none (some 80) = Except.ok 9 ∧
    linuxStartProcessWithPort worldDead "c" none (some 80) = Except.ok 7 ∧
    worldDead.running 7 = false ∧
    ¬ startWithPortContract linuxStartProcessWithPort := by
  refine ⟨by decide, by decide, by decide, ?_⟩
  intro h
  have hc := h worldDead "c" none (some 80) ⟨7, rfl⟩
  have hexp : contractExpected worldDead (some 80) = some 9 := by decide
  rw [hexp] at hc
  have : (Except.ok 7 : Except String Nat) = Except.ok 9 := by
    calc (Except.ok 7 : Except String Nat)
        = linuxStartProcessWithPort worldDead "c" none (some 80) := by decide
      _ = Except.ok 9 := hc
  exact absurd this (by decide)

/-- C3 (amended): the macOS backend satisfies the claimed contract of
start_process_with_port (captured-and-running PID first, then the running
port-resolved PID, else the died-immediately failure); the Linux backend does
not implement it: it inherits the trait default, which ignores the port and
returns whatever start_process returns, with no verification or fallback. -/
theorem start_with_port_contract_amended :
    startWithPortContract macosStartProcessWithPort ∧
    (∀ (w : ProcWorld) (command : String) (working_dir : Option String)
      (port : Option Nat),
      linuxStartProcessWithPort w command working_dir port =
        linuxStartProcess w command working_dir) := by
  constructor
  · intro w command working_dir port hspawn
    obtain ⟨child, hc⟩ := hspawn
    unfold contractExpected
    unfold macosStartProcessWithPort
    rw [hc]
    by_cases h1 : (0 < w.capturedPid.getD 0 && w.running (w.capturedPid.getD 0)) = true
    · simp [h1]
    · have h1' : (0 < w.capturedPid.getD 0 && w.running (w.capturedPid.getD 0)) = false := by
        revert h1
        cases (0 < w.capturedPid.getD 0 && w.running (w.capturedPid.getD 0)) <;> simp
      cases port with
      | none =>
        simp [h1']
      | some prt =>
        cases hpp : w.portPid prt with
        | none =>
          simp [h1', hpp]
        | some fpid =>
          by_cases h2 : w.running fpid = true
          · simp [h1', hpp, h2]
          · have h2' : w.running fpid = false := by
              revert h2
              cases w.running fpid <;> simp
            simp [h1', hpp, h2']
  · intro w command working_dir port
    rfl

/-- World for the C3 witness: the handshake captured pid 5, which is running. -/
def worldAlive : ProcWorld :=
  { spawnResult := Except.ok 3
    capturedPid := some 5
    running := fun p => p == 5
    portPid := fun _ => none }

/-- Witness for the amended C3: the macOS contract yields the captured
running pid, and the Linux with-port call equals the plain Linux spawn. -/
theorem start_with_port_contract_amended_witness :
    macosStartProcessWithPort worldAlive "c" none none = Except.ok 5 ∧
    linuxStartProcessWithPort worldAlive "c" none (some 80) =
      linuxStartProcess worldAlive "c" none := by
  constructor
  · have h := start_with_port_contract_amended.1 worldAlive "c" none none ⟨3, rfl⟩
    have hexp : contractExpected worldAlive none = some 5 := by decide
    rw [hexp] at h
    exact h
  · exact start_with_port_contract_amended.2 worldAlive "c" none (some 80)
